import Mathlib

/-!
Shallow embedding of the authentication core of the almasync-backend
repository (Express + Mongoose + jose), covering:

* `src/models` — the `UserSchema` methods for refresh tokens, login
  attempts and sessions;
* `src/utils/jwt.js` — token generation/verification (the version under
  `src/utils/`, whose `generateTokenPair(payload)` takes a single
  argument and whose signed payloads carry `_id`/`jti`);
* `src/controllers/auth.controller.js` — login, refresh, OTP
  verification and OTP-based password change;
* the admin login of `src/controllers/admin.auth.controller.js`;
* `src/middlewares/auth.middleware.js` — required and optional user
  authentication.

Conventions: JS timestamps (`Date.now()`, `new Date()`) are `Nat`
milliseconds since the epoch.  JS `undefined` is `Option.none`.
JWT `iat`/`exp` are kept in the same millisecond clock (a uniform unit
change from the real epoch-seconds claims).  Randomness (uuidv4, jti)
is passed in as explicit arguments.  bcrypt comparison is an abstract
boolean function `cmp : String → String → Bool` passed to the flows,
and the bcrypt pre-save hash is an abstract `hash : String → String`.
-/

namespace AlmaSync

/-- JS `a || b` on possibly-`undefined` values (our `Option`s): the left
value when present, otherwise the right. -/
def jsOr {α : Type} (a b : Option α) : Option α :=
  match a with
  | some x => some x
  | none => b

/-- JS truthiness of a possibly-`undefined` string: `undefined` and the
empty string are falsy. -/
def jsTruthyStr (s : Option String) : Bool :=
  match s with
  | none => false
  | some v => !v.isEmpty

/-- JS `Array.prototype.slice(-n)`: the last `n` elements (the whole
list when it is shorter than `n`). -/
def jsSliceLast {α : Type} (n : Nat) (l : List α) : List α :=
  l.drop (l.length - n)

/-- Which symmetric secret signed a token (`ACCESS_TOKEN_SECRET` vs
`REFRESH_TOKEN_SECRET`, distinct values in `src/utils/jwt.js`). -/
inductive SecretKind
  | accessSecret
  | refreshSecret
deriving Repr, DecidableEq

/-- The unregistered claims appearing across this codebase's payloads.
Absent properties (JS `undefined`) are `none`; `createUserPayload` sets
`_id` (modelled as `idClaim`), never `userId`, which is what makes the
`decoded.userId` reads in `auth.controller.js` come out `undefined`. -/
structure Payload where
  idClaim : Option String := none
  uid : Option String := none
  email : Option String := none
  role : Option String := none
  firstName : Option String := none
  lastName : Option String := none
  isVerified : Option Bool := none
  profileComplete : Option Bool := none
  purpose : Option String := none
  type : Option String := none
  jti : Option String := none
  userId : Option String := none
  tokenId : Option String := none
  sessionId : Option String := none
deriving Repr, DecidableEq

/-- A signed JWT: claims plus registered claims plus the signing secret.
The DB stores its serialized string; the model keeps the value itself. -/
structure SignedToken where
  claims : Payload
  iat : Nat
  exp : Nat
  iss : String
  aud : String
  secret : SecretKind
deriving Repr, DecidableEq

/-- One element of `UserSchema.refreshTokens` (src/models).  `tokenId`
is `Option String` because `loginUser` stores `tokenData.refreshTokenId`,
a property that `generateTokenPair` in `src/utils/jwt.js` does not
return, so the stored value is JS `undefined`. -/
structure RefreshTokenRecord where
  token : SignedToken
  tokenId : Option String
  createdAt : Nat
  expiresAt : Nat
  userAgent : String
  ipAddress : String
  isRevoked : Bool
deriving Repr, DecidableEq

/-- One element of `UserSchema.activeSessions` (src/models). -/
structure SessionRecord where
  sessionId : String
  deviceInfo : String
  lastAccess : Nat
  ipAddress : String
deriving Repr, DecidableEq

/-- Embeds `UserSchema.loginAttempts` (src/models). -/
structure LoginAttempts where
  count : Nat
  lastAttempt : Option Nat
  lockedUntil : Option Nat
deriving Repr, DecidableEq

/-- The fields of a `users` document used by the auth core
(src/models `UserSchema`).  `password` holds the bcrypt hash. -/
structure User where
  mongoId : String
  uid : String
  email : String
  password : String
  firstName : String
  lastName : String
  role : String
  isProfileVerified : Bool
  isProfileComplete : Bool
  verifyOtp : Option Nat
  refreshTokens : List RefreshTokenRecord
  loginAttempts : LoginAttempts
  activeSessions : List SessionRecord
deriving Repr, DecidableEq

/-- The filter used by `addRefreshToken` and `removeExpiredRefreshTokens`:
`rt.expiresAt > new Date() && !rt.isRevoked`. -/
def RefreshTokenRecord.isLive (now : Nat) (rt : RefreshTokenRecord) : Bool :=
  decide (now < rt.expiresAt) && !rt.isRevoked

/-- The argument object passed to `addRefreshToken`. -/
structure NewTokenData where
  token : SignedToken
  tokenId : Option String
  expiresAt : Nat
  userAgent : String
  ipAddress : String
deriving Repr, DecidableEq

/-- The record `addRefreshToken` pushes (`createdAt: new Date()`,
`isRevoked: false`). -/
def NewTokenData.toRecord (now : Nat) (d : NewTokenData) : RefreshTokenRecord :=
  { token := d.token, tokenId := d.tokenId, createdAt := now,
    expiresAt := d.expiresAt, userAgent := d.userAgent,
    ipAddress := d.ipAddress, isRevoked := false }

/-- Embeds `UserSchema.methods.addRefreshToken` (src/models): filter to live
records, `slice(-4)`, then push the new record. -/
def User.addRefreshToken (now : Nat) (u : User) (d : NewTokenData) : User :=
  { u with refreshTokens :=
      jsSliceLast 4 (u.refreshTokens.filter (RefreshTokenRecord.isLive now))
        ++ [d.toRecord now] }

/-- Mark the first record whose `tokenId` strictly equals the argument
as revoked; the `Bool` is the method's return value (`findIndex !== -1`). -/
def revokeFirst : List RefreshTokenRecord → Option String →
    List RefreshTokenRecord × Bool
  | [], _ => ([], false)
  | rt :: rest, tid =>
    if rt.tokenId = tid then ({ rt with isRevoked := true } :: rest, true)
    else
      let r := revokeFirst rest tid
      (rt :: r.1, r.2)

/-- Embeds `UserSchema.methods.revokeRefreshToken` (src/models). -/
def User.revokeRefreshToken (u : User) (tid : Option String) : User × Bool :=
  let r := revokeFirst u.refreshTokens tid
  ({ u with refreshTokens := r.1 }, r.2)

/-- Embeds `UserSchema.methods.revokeAllRefreshTokens` (src/models). -/
def User.revokeAllRefreshTokens (u : User) : User :=
  { u with refreshTokens :=
      u.refreshTokens.map (fun rt => { rt with isRevoked := true }) }

/-- Embeds `UserSchema.methods.removeExpiredRefreshTokens` (src/models). -/
def User.removeExpiredRefreshTokens (now : Nat) (u : User) : User :=
  { u with refreshTokens :=
      u.refreshTokens.filter (RefreshTokenRecord.isLive now) }

/-- Embeds `UserSchema.methods.isRefreshTokenValid` (src/models): a record with
that id exists, is not revoked, and expires in the future. -/
def User.isRefreshTokenValid (now : Nat) (u : User) (tid : Option String) : Bool :=
  match u.refreshTokens.find? (fun rt => rt.tokenId == tid) with
  | some rt => !rt.isRevoked && decide (now < rt.expiresAt)
  | none => false

/-- Embeds `UserSchema.methods.incrementLoginAttempts` (src/models): reset the
counter to 1 after a strictly-more-than-15-minute gap since the last
failure, otherwise increment; stamp `lastAttempt`; at `count >= 5` set
`lockedUntil` 30 minutes ahead (otherwise leave it as it was). -/
def LoginAttempts.increment (now : Nat) (la : LoginAttempts) : LoginAttempts :=
  let count :=
    match la.lastAttempt with
    | some t => if now > t + 15 * 60 * 1000 then 1 else la.count + 1
    | none => la.count + 1
  { count := count
    lastAttempt := some now
    lockedUntil :=
      if count ≥ 5 then some (now + 30 * 60 * 1000) else la.lockedUntil }

/-- Embeds `incrementLoginAttempts` as a `User` update. -/
def User.incrementLoginAttempts (now : Nat) (u : User) : User :=
  { u with loginAttempts := u.loginAttempts.increment now }

/-- Embeds `UserSchema.methods.resetLoginAttempts` (src/models). -/
def User.resetLoginAttempts (u : User) : User :=
  { u with loginAttempts := { count := 0, lastAttempt := none, lockedUntil := none } }

/-- Embeds `UserSchema.methods.isAccountLocked` (src/models):
`lockedUntil && lockedUntil > new Date()`. -/
def User.isAccountLocked (now : Nat) (u : User) : Bool :=
  match u.loginAttempts.lockedUntil with
  | some t => decide (now < t)
  | none => false

/-- Embeds `UserSchema.methods.addSession` (src/models): `slice(-9)` then push. -/
def User.addSession (now : Nat) (u : User)
    (sessionId deviceInfo ipAddress : String) : User :=
  { u with activeSessions :=
      jsSliceLast 9 u.activeSessions ++
        [{ sessionId := sessionId, deviceInfo := deviceInfo,
           lastAccess := now, ipAddress := ipAddress }] }

/-- Touch the first session with the given id (the `find`-then-mutate of
`updateSessionAccess`). -/
def touchFirst : List SessionRecord → String → Nat → List SessionRecord
  | [], _, _ => []
  | s :: rest, sid, now =>
    if s.sessionId = sid then { s with lastAccess := now } :: rest
    else s :: touchFirst rest sid now

/-- Embeds `UserSchema.methods.updateSessionAccess` (src/models). -/
def User.updateSessionAccess (now : Nat) (u : User) (sid : String) : User :=
  { u with activeSessions := touchFirst u.activeSessions sid now }

/-- Embeds `UserSchema.methods.removeSession` (src/models). -/
def User.removeSession (u : User) (sid : String) : User :=
  { u with activeSessions := u.activeSessions.filter (fun s => s.sessionId ≠ sid) }

/-- Embeds `UserSchema.methods.clearAllSessions` (src/models). -/
def User.clearAllSessions (u : User) : User :=
  { u with activeSessions := [] }

/-! JWT layer, from `src/utils/jwt.js` (jose).  A signed token is
modelled as its claims plus which secret signed it; signature checking
becomes a secret-kind comparison. -/

/-- Embeds `JWT_ACCESS_TOKEN_EXPIRY = '15m'`, in milliseconds. -/
def accessTokenTtl : Nat := 15 * 60 * 1000

/-- Embeds `JWT_REFRESH_TOKEN_EXPIRY = '7d'`, in milliseconds. -/
def refreshTokenTtl : Nat := 7 * 24 * 60 * 60 * 1000

/-- Embeds `generateAccessToken` (src/utils/jwt.js): spread the payload, set
`type: 'access'` and a fresh `jti`, sign with the access secret, expiry
15 minutes from `iat`.  The fresh uuid is the `jti` argument. -/
def generateAccessToken (now : Nat) (payload : Payload) (jti : String) :
    SignedToken :=
  { claims := { payload with type := some "access", jti := some jti }
    iat := now
    exp := now + accessTokenTtl
    iss := "almasync-backend"
    aud := "almasync-frontend"
    secret := .accessSecret }

/-- Embeds `generateRefreshToken` (src/utils/jwt.js): as above with
`type: 'refresh'`, the refresh secret, and a fixed 7-day expiry.  Note
the source takes no remember-me argument: `JWT_REFRESH_TOKEN_EXPIRY`
is always `'7d'`. -/
def generateRefreshToken (now : Nat) (payload : Payload) (jti : String) :
    SignedToken :=
  { claims := { payload with type := some "refresh", jti := some jti }
    iat := now
    exp := now + refreshTokenTtl
    iss := "almasync-backend"
    aud := "almasync-frontend"
    secret := .refreshSecret }

/-- The jose-level failures surfaced by `verifyAccessToken` /
`verifyRefreshToken`, after the catch-block mapping in jwt.js.  The JS
values are `Error`s whose messages the controllers inspect with
`message.includes('expired')`. -/
inductive JwtError
  | accessExpired
  | refreshExpired
  | invalidAccessSignature
  | invalidAccessIssuer
  | invalidAccessAudience
  | invalidAccessTokenType
  | invalidRefreshSignature
  | invalidRefreshIssuer
  | invalidRefreshAudience
  | invalidRefreshTokenType
deriving Repr, DecidableEq

/-- Whether the corresponding JS error message contains the substring
`'expired'`: `'Access token expired'` and `'Refresh token expired'` do;
the `Invalid ... token: ...` messages (signature / issuer / audience /
`Invalid token type`) do not. -/
def JwtError.mentionsExpired : JwtError → Bool
  | .accessExpired => true
  | .refreshExpired => true
  | _ => false

/-- Embeds `verifyAccessToken` (src/utils/jwt.js): jose verifies the signature
first, then issuer/audience, then expiry (a token is expired once `now`
reaches `exp`); finally jwt.js rejects payloads whose `type` is not
`'access'`. -/
def verifyAccessToken (now : Nat) (tok : SignedToken) :
    Except JwtError Payload :=
  if tok.secret ≠ .accessSecret then .error .invalidAccessSignature
  else if tok.iss ≠ "almasync-backend" then .error .invalidAccessIssuer
  else if tok.aud ≠ "almasync-frontend" then .error .invalidAccessAudience
  else if tok.exp ≤ now then .error .accessExpired
  else if tok.claims.type ≠ some "access" then .error .invalidAccessTokenType
  else .ok tok.claims

/-- Embeds `verifyRefreshToken` (src/utils/jwt.js), symmetric to
`verifyAccessToken`. -/
def verifyRefreshToken (now : Nat) (tok : SignedToken) :
    Except JwtError Payload :=
  if tok.secret ≠ .refreshSecret then .error .invalidRefreshSignature
  else if tok.iss ≠ "almasync-backend" then .error .invalidRefreshIssuer
  else if tok.aud ≠ "almasync-frontend" then .error .invalidRefreshAudience
  else if tok.exp ≤ now then .error .refreshExpired
  else if tok.claims.type ≠ some "refresh" then .error .invalidRefreshTokenType
  else .ok tok.claims

/-- The failures of `validateTokenPayload` (src/utils/jwt.js).  Their JS
messages (`'Token payload is empty'`, ``Expected ... token, got ...``,
`'Token payload missing required fields'`) never contain `'expired'`. -/
inductive PayloadErr
  | typeMismatch (expected : String) (got : Option String)
  | missingFields
deriving Repr, DecidableEq

/-- Embeds `validateTokenPayload` (src/utils/jwt.js).  The `!payload` guard
cannot fire (a decoded payload object is always truthy); then the `type`
claim must equal the expected type, and `_id`, `email` and `role` must
be truthy (present and non-empty). -/
def validateTokenPayload (p : Payload) (expected : String) :
    Except PayloadErr Unit :=
  if p.type ≠ some expected then .error (.typeMismatch expected p.type)
  else if !jsTruthyStr p.idClaim || !jsTruthyStr p.email || !jsTruthyStr p.role
    then .error .missingFields
  else .ok ()

/-- Embeds `createUserPayload` (src/utils/jwt.js): the claim shape of every
user token signed by this codebase.  It sets `_id`, never `userId`,
`tokenId` or `sessionId`. -/
def createUserPayload (u : User) : Payload :=
  { idClaim := some u.mongoId, uid := some u.uid, email := some u.email,
    role := some u.role, firstName := some u.firstName,
    lastName := some u.lastName, isVerified := some u.isProfileVerified,
    profileComplete := some u.isProfileComplete }

/-- Embeds `createAdminPayload` (src/utils/jwt.js). -/
def createAdminPayload (u : User) : Payload :=
  { idClaim := some u.mongoId, uid := some u.uid, email := some u.email,
    role := some "admin" }

/-- The object returned by `generateTokenPair` (src/utils/jwt.js).  It
carries only these four properties — in particular there is no
`refreshTokenId`, so controller reads of `tokenData.refreshTokenId`
yield JS `undefined`. -/
structure TokenPairData where
  accessToken : SignedToken
  refreshToken : SignedToken
  tokenType : String
  expiresIn : String
deriving Repr, DecidableEq

/-- Embeds `generateTokenPair` (src/utils/jwt.js).  The source function accepts
a single `payload` parameter; the controllers pass extra `rememberMe`
and `sessionId` arguments, which JS silently discards, so neither can
influence the result.  The two fresh `jti` uuids are passed in. -/
def generateTokenPair (now : Nat) (payload : Payload)
    (accessJti refreshJti : String) : TokenPairData :=
  { accessToken := generateAccessToken now payload accessJti
    refreshToken := generateRefreshToken now payload refreshJti
    tokenType := "Bearer"
    expiresIn := "15m" }

/-! The persisted collection of users, and the Mongoose lookups the
controllers use. -/

/-- The `users` collection. -/
structure Store where
  users : List User
deriving Repr, DecidableEq

/-- Embeds `User.findById(id)`.  Mongoose documents that `findById(undefined)`
is translated to `findOne({ _id: null })`, which matches no document
(ObjectIds are never null); a present id is looked up normally. -/
def Store.findById (store : Store) (id : Option String) : Option User :=
  match id with
  | none => none
  | some i => store.users.find? (fun u => u.mongoId == i)

/-- Embeds `User.findOne({ $or: [{ email }, { uid }] })` for a request that
supplies an email and/or a uid. -/
def Store.findByEmailOrUid (store : Store) (email uid : Option String) :
    Option User :=
  store.users.find? (fun u => email == some u.email || uid == some u.uid)

/-- Embeds `User.findOne({ email })`. -/
def Store.findByEmail (store : Store) (email : String) : Option User :=
  store.users.find? (fun u => u.email == email)

/-- Embeds `User.findOne({ email, role: 'admin' })` (admin login). -/
def Store.findAdminByEmail (store : Store) (email : String) : Option User :=
  store.users.find? (fun u => u.email == email && u.role == "admin")

/-- Persist an updated user document (all the `save()` calls): replace
the document with the matching `_id`. -/
def Store.updateUser (store : Store) (u : User) : Store :=
  { users := store.users.map (fun v => if v.mongoId = u.mongoId then u else v) }

/-! Controller flows, from `src/controllers/auth.controller.js` and the
admin controller.  Each handler is a function from the request, the
store, a clock instant and the fresh random values it draws, to an
`Except` of an `ApiError` (status code plus message tag) and the updated
store. -/

/-- Message tags for the `ApiError`s each handler can produce; one tag
per distinct message string in the source. -/
inductive ErrTag
  | invalidCredentials
  | accountTemporarilyLocked
  | invalidPassword
  | allFieldsRequired
  | adminDetailsInvalid
  | invalidPasswordAndCredentials
  | refreshTokenNotFound
  | refreshTokenExpiredLoginAgain
  | invalidRefreshTokenWrapped
  | userNotFound
  | invalidOtp
  | resetTokenNotFound
  | resetTokenExpired
  | invalidResetTokenWrapped
  | accessTokenNotFound
  | invalidAccessUserNotFound
  | adminShouldUseAdminRoutes
  | accountLockedMidSession
  | accessTokenExpiredRefresh
  | authenticationFailed
  | refreshTokenIdRequired
deriving Repr, DecidableEq

/-- Embeds `ApiError(status, message)`, with the message abstracted to its tag. -/
structure ApiError where
  status : Nat
  tag : ErrTag
deriving Repr, DecidableEq

/-- Embeds the schema validation `save()` runs on the embedded
`refreshTokens` array: `tokenId` is `required: true` in the schema
(src/models), so a record whose `tokenId` is `undefined` fails
validation and the save rejects with a Mongoose `ValidationError`. -/
def User.refreshTokensValidate (u : User) : Bool :=
  u.refreshTokens.all (fun rt => rt.tokenId.isSome)

/-- Modelled from the spec: the top-level handling of the escaping
Mongoose `ValidationError` (the `asyncHandler`/`ApiError` utilities and
any terminal error middleware are not under src/; `app.js` registers no
error handler).  Per the spec, unexpected exceptions propagate to a
top-level handler that converts them to a generic 500. -/
def validationFailure : ApiError := ⟨500, .refreshTokenIdRequired⟩

/-- The observable events of one `loginUser` run that claim C3 speaks
about: the lockout-guard consultation, the bcrypt password comparison,
and the two attempt recorders. -/
inductive LoginEvent
  | lockCheck
  | pwCompare
  | recFailure
  | recSuccess
deriving Repr, DecidableEq

/-- The request body / context of `loginUser`. -/
structure LoginReq where
  email : Option String
  uid : Option String
  password : String
  rememberMe : Bool
  userAgent : String
  ipAddress : String
deriving Repr, DecidableEq

/-- The success payload of `loginUser` (post-state user, token pair and
session id). -/
structure LoginOk where
  user : User
  tokenData : TokenPairData
  sessionId : String
deriving Repr, DecidableEq

/-- Embeds `loginUser` (src/controllers/auth.controller.js).  `cmp` is
`bcrypt.compare`; `sessionId`, `accessJti` and `refreshJti` are the
fresh uuids the handler draws.  Returns the handler outcome, the
persisted store, and the event trace.  Notes kept from the source:
the unknown-identity branch throws `ApiError(401, "Invalid credentials")`;
the `resetLoginAttempts` save persists on its own before token
generation; `generateTokenPair(userPayload, rememberMe, sessionId)`
reaches a one-parameter function, so the extra arguments are dropped;
`tokenData.refreshTokenId` is `undefined`, so the record handed to
`addRefreshToken` has no `tokenId` while the schema requires one — its
`save()` therefore rejects with a `ValidationError` (the record's
`expiresAt` would have honoured `rememberMe`, 30 vs 7 days, but is
never persisted), the session is never added, and the error escapes
the handler as `validationFailure`. -/
def loginUser (cmp : String → String → Bool) (now : Nat) (store : Store)
    (req : LoginReq) (sessionId accessJti refreshJti : String) :
    Except ApiError LoginOk × Store × List LoginEvent :=
  match store.findByEmailOrUid req.email req.uid with
  | none => (.error ⟨401, .invalidCredentials⟩, store, [])
  | some user =>
    if user.isAccountLocked now then
      (.error ⟨429, .accountTemporarilyLocked⟩, store, [.lockCheck])
    else if !(cmp req.password user.password) then
      let user := user.incrementLoginAttempts now
      (.error ⟨401, .invalidPassword⟩, store.updateUser user,
        [.lockCheck, .pwCompare, .recFailure])
    else
      let events :=
        if user.loginAttempts.count > 0 then
          [LoginEvent.lockCheck, LoginEvent.pwCompare, LoginEvent.recSuccess]
        else [LoginEvent.lockCheck, LoginEvent.pwCompare]
      let userStore :=
        if user.loginAttempts.count > 0 then
          let r := user.resetLoginAttempts
          (r, store.updateUser r)
        else (user, store)
      let user := userStore.1
      let store1 := userStore.2
      let userPayload := createUserPayload user
      let tokenData := generateTokenPair now userPayload accessJti refreshJti
      let refreshTokenData : NewTokenData :=
        { token := tokenData.refreshToken
          tokenId := none
          expiresAt := now + (if req.rememberMe then 30 * 24 * 60 * 60 * 1000
            else 7 * 24 * 60 * 60 * 1000)
          userAgent := req.userAgent
          ipAddress := req.ipAddress }
      let user := user.addRefreshToken now refreshTokenData
      if user.refreshTokensValidate then
        let user := user.addSession now sessionId req.userAgent req.ipAddress
        (.ok { user := user, tokenData := tokenData, sessionId := sessionId },
          store1.updateUser user, events)
      else
        (.error validationFailure, store1, events)

/-- The request body / context of `loginAdmin`. -/
structure AdminLoginReq where
  email : String
  password : String
  userAgent : String
  ipAddress : String
deriving Repr, DecidableEq

/-- The success payload of `loginAdmin`. -/
structure AdminLoginOk where
  admin : User
  tokenData : TokenPairData
  sessionId : String
deriving Repr, DecidableEq

/-- Embeds `loginAdmin` (admin auth controller): required-field check (JS
truthiness, empty strings falsy), `findOne({email, role:'admin'})` with
a 404 on no match, then the same lock / compare / record structure as
`loginUser`; the stored record's `tokenId` here is a fresh uuid
(`recordTokenId`), unrelated to the signed token's `jti` — it is
present, so `addRefreshToken`'s save passes schema validation. -/
def loginAdmin (cmp : String → String → Bool) (now : Nat) (store : Store)
    (req : AdminLoginReq)
    (recordTokenId sessionId accessJti refreshJti : String) :
    Except ApiError AdminLoginOk × Store :=
  if req.email.isEmpty || req.password.isEmpty then
    (.error ⟨400, .allFieldsRequired⟩, store)
  else
    match store.findAdminByEmail req.email with
    | none => (.error ⟨404, .adminDetailsInvalid⟩, store)
    | some admin =>
      if admin.isAccountLocked now then
        (.error ⟨429, .accountTemporarilyLocked⟩, store)
      else if !(cmp req.password admin.password) then
        (.error ⟨401, .invalidPasswordAndCredentials⟩,
          store.updateUser (admin.incrementLoginAttempts now))
      else
        let adminStore :=
          if admin.loginAttempts.count > 0 then
            let r := admin.resetLoginAttempts
            (r, store.updateUser r)
          else (admin, store)
        let admin := adminStore.1
        let store1 := adminStore.2
        let adminPayload := createAdminPayload admin
        let tokenData := generateTokenPair now adminPayload accessJti refreshJti
        let refreshTokenData : NewTokenData :=
          { token := tokenData.refreshToken
            tokenId := some recordTokenId
            expiresAt := now + 7 * 24 * 60 * 60 * 1000
            userAgent := req.userAgent
            ipAddress := req.ipAddress }
        let admin := admin.addRefreshToken now refreshTokenData
        if admin.refreshTokensValidate then
          let admin := admin.addSession now sessionId req.userAgent
            req.ipAddress
          (.ok { admin := admin, tokenData := tokenData,
                 sessionId := sessionId },
            store1.updateUser admin)
        else
          (.error validationFailure, store1)

/-- Everything the `refreshAccessToken` try block can throw: the two
jwt.js error families plus the two `ApiError`s thrown inside the block
(the source's catch has no `instanceof` test and re-wraps them too). -/
inductive RefreshThrow
  | verifyErr (e : JwtError)
  | payloadErr (e : PayloadErr)
  | apiUserNotFound
  | apiRevoked
deriving Repr, DecidableEq

/-- Embeds `error.message.includes('expired')` for each throwable: the message
`"Refresh token has been revoked or expired"` does contain `'expired'`;
`"Invalid refresh token - user not found"` and the payload-validation
messages do not. -/
def RefreshThrow.mentionsExpired : RefreshThrow → Bool
  | .verifyErr e => e.mentionsExpired
  | .payloadErr _ => false
  | .apiUserNotFound => false
  | .apiRevoked => true

/-- The request context of `refreshAccessToken`: the combined
`extractToken(req,'refresh') || req.cookies?.refreshToken` result and
the fallback session id from the body. -/
structure RefreshReq where
  refreshToken : Option SignedToken
  bodySessionId : Option String
  userAgent : String
  ipAddress : String
deriving Repr, DecidableEq

/-- The try block of `refreshAccessToken`
(src/controllers/auth.controller.js): verify, validate, look the user
up by `decoded.userId` (a claim no token of this codebase carries),
check the store record by `decoded.tokenId || decoded.jti`, prune,
regenerate the pair, revoke the old record, push the new record (its
`tokenId` is the absent `tokenData.refreshTokenId`), touch the session. -/
def refreshTryBlock (now : Nat) (store : Store) (req : RefreshReq)
    (tok : SignedToken) (accessJti refreshJti : String) :
    Except RefreshThrow (Store × TokenPairData) := do
  let decoded ← (verifyRefreshToken now tok).mapError RefreshThrow.verifyErr
  let _ ← (validateTokenPayload decoded "refresh").mapError RefreshThrow.payloadErr
  match store.findById decoded.userId with
  | none => Except.error RefreshThrow.apiUserNotFound
  | some user =>
    let tokenIdToCheck := jsOr decoded.tokenId decoded.jti
    if !(user.isRefreshTokenValid now tokenIdToCheck) then
      Except.error RefreshThrow.apiRevoked
    else
      let user := user.removeExpiredRefreshTokens now
      let userPayload := createUserPayload user
      let tokenData := generateTokenPair now userPayload accessJti refreshJti
      let user := (user.revokeRefreshToken tokenIdToCheck).1
      let newRefreshTokenData : NewTokenData :=
        { token := tokenData.refreshToken
          tokenId := none
          expiresAt := now + 7 * 24 * 60 * 60 * 1000
          userAgent := req.userAgent
          ipAddress := req.ipAddress }
      let user := user.addRefreshToken now newRefreshTokenData
      let user :=
        match decoded.sessionId with
        | some sid => user.updateSessionAccess now sid
        | none =>
          match req.bodySessionId with
          | some sid => user.updateSessionAccess now sid
          | none => user
      Except.ok (store.updateUser user, tokenData)

/-- Embeds `refreshAccessToken` (src/controllers/auth.controller.js): 401 when
no token is presented; otherwise run the try block, and map every
throwable to a 401 — with the `'expired'`-message ones mapped to the
"login again" message and the rest wrapped as `Invalid refresh token:`. -/
def refreshAccessToken (now : Nat) (store : Store) (req : RefreshReq)
    (accessJti refreshJti : String) :
    Except ApiError (Store × TokenPairData) :=
  match req.refreshToken with
  | none => .error ⟨401, .refreshTokenNotFound⟩
  | some tok =>
    match refreshTryBlock now store req tok accessJti refreshJti with
    | .ok r => .ok r
    | .error t =>
      if t.mentionsExpired then .error ⟨401, .refreshTokenExpiredLoginAgain⟩
      else .error ⟨401, .invalidRefreshTokenWrapped⟩

/-- JS loose equality `otp == user.verifyOtp` restricted to the value
shapes this flow sees: a possibly-absent request value against a
possibly-absent stored number.  `undefined == undefined` is `true`;
`undefined == n` is `false` for every number `n`. -/
def jsLooseEqOtp : Option Nat → Option Nat → Bool
  | none, none => true
  | some a, some b => a == b
  | _, _ => false

/-- The request of `verifyOtpForPasswordChange`: `req.body.otp` (absent
when the client omits the field) and the `email` route parameter. -/
structure OtpVerifyReq where
  otp : Option Nat
  email : String
deriving Repr, DecidableEq

/-- Embeds `verifyOtpForPasswordChange` (src/controllers/auth.controller.js):
look the user up by email (404 on none), compare with JS `==` (400 on
mismatch), clear the stored OTP, and issue an access-type token with
`purpose: 'password-reset'` via `generateAccessToken` — whose expiry is
the 15-minute `JWT_ACCESS_TOKEN_EXPIRY`, the inline comment's "5
minutes" notwithstanding. -/
def verifyOtpForPasswordChange (now : Nat) (store : Store)
    (req : OtpVerifyReq) (jti : String) :
    Except ApiError (Store × SignedToken) :=
  match store.findByEmail req.email with
  | none => .error ⟨404, .userNotFound⟩
  | some user =>
    if !(jsLooseEqOtp req.otp user.verifyOtp) then
      .error ⟨400, .invalidOtp⟩
    else
      let user := { user with verifyOtp := none }
      let resetPayload : Payload :=
        { idClaim := some user.mongoId, uid := some user.uid,
          email := some user.email, purpose := some "password-reset" }
      let resetToken := generateAccessToken now resetPayload jti
      .ok (store.updateUser user, resetToken)

/-- Everything the `changePasswordUsingOtp` try block can throw. -/
inductive ChangePwThrow
  | verifyErr (e : JwtError)
  | apiBadPurpose
  | apiUserNotFound
deriving Repr, DecidableEq

/-- Embeds `error.message.includes('expired')` for the change-password catch:
`"Invalid reset token purpose"` and `"User not found"` do not contain
`'expired'`. -/
def ChangePwThrow.mentionsExpired : ChangePwThrow → Bool
  | .verifyErr e => e.mentionsExpired
  | _ => false

/-- The request of `changePasswordUsingOtp`: the new password from the
body and the reset token route parameter. -/
structure ChangePwReq where
  newPassword : String
  resetToken : Option SignedToken
deriving Repr, DecidableEq

/-- The try block of `changePasswordUsingOtp`
(src/controllers/auth.controller.js): verify the reset token as an
access token, require `purpose === 'password-reset'`, look the user up
by `decoded.userId` (a claim the reset payload does not carry), then
set the password (bcrypt pre-save hook `hash`), revoke every refresh
token and clear every session. -/
def changePwTryBlock (hash : String → String) (now : Nat) (store : Store)
    (newPassword : String) (tok : SignedToken) :
    Except ChangePwThrow Store := do
  let decoded ← (verifyAccessToken now tok).mapError ChangePwThrow.verifyErr
  if decoded.purpose ≠ some "password-reset" then
    Except.error ChangePwThrow.apiBadPurpose
  else
    match store.findById decoded.userId with
    | none => Except.error ChangePwThrow.apiUserNotFound
    | some user =>
      let user := { user with password := hash newPassword }
      let user := user.revokeAllRefreshTokens
      let user := user.clearAllSessions
      Except.ok (store.updateUser user)

/-- Embeds `changePasswordUsingOtp` (src/controllers/auth.controller.js): 401
when the token parameter is missing, otherwise the try block with every
throwable mapped to a 400. -/
def changePasswordUsingOtp (hash : String → String) (now : Nat)
    (store : Store) (req : ChangePwReq) : Except ApiError Store :=
  match req.resetToken with
  | none => .error ⟨401, .resetTokenNotFound⟩
  | some tok =>
    match changePwTryBlock hash now store req.newPassword tok with
    | .ok s => .ok s
    | .error t =>
      if t.mentionsExpired then .error ⟨400, .resetTokenExpired⟩
      else .error ⟨400, .invalidResetTokenWrapped⟩

/-! Request authentication middleware, from
`src/middlewares/auth.middleware.js`. -/

/-- The request context the middleware reads: the `accessToken` cookie,
the `Authorization: Bearer` header, and the `X-Session-Id` header. -/
structure AuthReq where
  cookieAccessToken : Option SignedToken
  headerBearer : Option SignedToken
  sessionIdHeader : Option String
deriving Repr, DecidableEq

/-- Embeds `extractToken(req, 'access')` (src/utils/jwt.js): the bearer header
first, the cookie as fallback. -/
def extractAccessToken (req : AuthReq) : Option SignedToken :=
  jsOr req.headerBearer req.cookieAccessToken

/-- Everything the middleware try blocks can throw. -/
inductive AuthThrow
  | apiErr (status : Nat) (tag : ErrTag)
  | jwtErr (e : JwtError)
  | payloadErr (e : PayloadErr)
deriving Repr, DecidableEq

/-- Embeds `error.message.includes('expired')` for the non-`ApiError`
throwables of the middleware catch. -/
def AuthThrow.mentionsExpired : AuthThrow → Bool
  | .jwtErr e => e.mentionsExpired
  | _ => false

/-- Embeds the document both middlewares fetch with
`User.findById(decodedToken._id).select("_id uid firstName lastName
email role isProfileVerified isProfileComplete")`: only the selected
paths are present.  The other paths — in particular `loginAttempts`
and `activeSessions` — are excluded by the inclusive projection, and
Mongoose skips schema defaults for paths a projection excludes, so
their leaves read `undefined` through the document's nested-path
getters.  `loginAttemptsLockedUntil` is that `undefined` leaf. -/
structure ProjectedUser where
  mongoId : String
  uid : String
  email : String
  firstName : String
  lastName : String
  role : String
  isProfileVerified : Bool
  isProfileComplete : Bool
  loginAttemptsLockedUntil : Option Nat
deriving Repr, DecidableEq

/-- Embeds the `.select(...)` projection applied to a full document:
the selected scalar paths are copied; `loginAttempts` is not selected,
so its `lockedUntil` leaf is `undefined` on the projected document
whatever the stored value is. -/
def User.selectAuthFields (u : User) : ProjectedUser :=
  { mongoId := u.mongoId, uid := u.uid, email := u.email,
    firstName := u.firstName, lastName := u.lastName, role := u.role,
    isProfileVerified := u.isProfileVerified,
    isProfileComplete := u.isProfileComplete,
    loginAttemptsLockedUntil := none }

/-- Embeds `isAccountLocked()` as it evaluates on the projected
document: `this.loginAttempts` is Mongoose's nested-path getter object
(never `undefined`, so no TypeError), and `this.loginAttempts.lockedUntil`
reads the projected-out leaf — `undefined && ...` is falsy. -/
def ProjectedUser.isAccountLocked (now : Nat) (u : ProjectedUser) : Bool :=
  match u.loginAttemptsLockedUntil with
  | some t => decide (now < t)
  | none => false

/-- The try block of `userAuthentication`
(src/middlewares/auth.middleware.js): extract
(`req.cookies?.accessToken || extractToken(req,'access')`), verify,
validate, fetch the projected user by `decodedToken._id`, reject
admins (403) and locked accounts (423) — the latter judged on the
projected document — and bind the principal.  The opportunistic
`updateSessionAccess` on an `X-Session-Id` header is not modelled as a
store change: `activeSessions` is also outside the projection, so the
call throws inside the inner try/catch, is logged, and persists
nothing. -/
def userAuthTryBlock (now : Nat) (store : Store) (req : AuthReq) :
    Except AuthThrow ProjectedUser := do
  match jsOr req.cookieAccessToken (extractAccessToken req) with
  | none => Except.error (AuthThrow.apiErr 401 .accessTokenNotFound)
  | some tok =>
    let decoded ← (verifyAccessToken now tok).mapError AuthThrow.jwtErr
    let _ ← (validateTokenPayload decoded "access").mapError AuthThrow.payloadErr
    match store.findById decoded.idClaim with
    | none => Except.error (AuthThrow.apiErr 401 .invalidAccessUserNotFound)
    | some u =>
      let user := u.selectAuthFields
      if user.role == "admin" then
        Except.error (AuthThrow.apiErr 403 .adminShouldUseAdminRoutes)
      else if user.isAccountLocked now then
        Except.error (AuthThrow.apiErr 423 .accountLockedMidSession)
      else
        Except.ok user

/-- Embeds `userAuthentication` (src/middlewares/auth.middleware.js): the
catch rethrows `ApiError`s unchanged and maps everything else to a 401,
distinguishing expiry. -/
def userAuthentication (now : Nat) (store : Store) (req : AuthReq) :
    Except ApiError ProjectedUser :=
  match userAuthTryBlock now store req with
  | .ok r => .ok r
  | .error (.apiErr status tag) => .error ⟨status, tag⟩
  | .error t =>
    if t.mentionsExpired then .error ⟨401, .accessTokenExpiredRefresh⟩
    else .error ⟨401, .authenticationFailed⟩

/-- The try block of `optionalUserAuthentication`
(src/middlewares/auth.middleware.js): same extraction and verification;
a missing token, an unknown user, an admin role or a (projected-)locked
account leave the principal unbound; otherwise the projected user is
bound.  The session touch is swallowed by the inner try/catch exactly
as in `userAuthTryBlock`. -/
def optionalAuthTryBlock (now : Nat) (store : Store) (req : AuthReq) :
    Except AuthThrow (Option ProjectedUser) := do
  match jsOr req.cookieAccessToken (extractAccessToken req) with
  | none => Except.ok none
  | some tok =>
    let decoded ← (verifyAccessToken now tok).mapError AuthThrow.jwtErr
    let _ ← (validateTokenPayload decoded "access").mapError AuthThrow.payloadErr
    match store.findById decoded.idClaim with
    | none => Except.ok none
    | some u =>
      let user := u.selectAuthFields
      if user.role != "admin" && !(user.isAccountLocked now) then
        Except.ok (some user)
      else Except.ok none

/-- Embeds `optionalUserAuthentication` (src/middlewares/auth.middleware.js):
the catch swallows every failure and proceeds without a principal. -/
def optionalUserAuthentication (now : Nat) (store : Store) (req : AuthReq) :
    Except ApiError (Option ProjectedUser) :=
  match optionalAuthTryBlock now store req with
  | .ok r => .ok r
  | .error _ => .ok none

/-- A login/refresh sequence of `addRefreshToken` calls, each with its
own clock instant (the repeated `await user.addRefreshToken(...)` of
successive logins). -/
def refreshInsertSeq (u : User) (ps : List (Nat × NewTokenData)) : User :=
  ps.foldl (fun acc p => acc.addRefreshToken p.1 p.2) u

/-! Helper lemmas. -/

theorem jsSliceLast_length_le {α : Type} (n : Nat) (l : List α) :
    (jsSliceLast n l).length ≤ n := by
  simp only [jsSliceLast, List.length_drop]
  omega

theorem jsSliceLast_snoc {α : Type} (n : Nat) (l : List α) (a : α) :
    jsSliceLast (n + 1) (l ++ [a]) = jsSliceLast n l ++ [a] := by
  simp only [jsSliceLast, List.length_append, List.length_cons,
    List.length_nil, List.drop_append_eq_append_drop]
  have h1 : l.length + 1 - (n + 1) = l.length - n := by omega
  rw [h1]
  have h2 : l.length - n - l.length = 0 := by omega
  rw [h2]
  simp

theorem jsSliceLast_jsSliceLast {α : Type} {m n : Nat} (h : m ≤ n)
    (l : List α) : jsSliceLast m (jsSliceLast n l) = jsSliceLast m l := by
  simp only [jsSliceLast, List.drop_drop, List.length_drop]
  congr 1
  omega

theorem jsSliceLast_sublist {α : Type} (n : Nat) (l : List α) :
    (jsSliceLast n l).Sublist l :=
  List.drop_sublist _ l

theorem mem_jsSliceLast {α : Type} {n : Nat} {l : List α} {a : α}
    (h : a ∈ jsSliceLast n l) : a ∈ l :=
  (jsSliceLast_sublist n l).mem h

theorem verifyAccessToken_ok {now : Nat} {tok : SignedToken} {d : Payload}
    (h : verifyAccessToken now tok = .ok d) : d = tok.claims := by
  unfold verifyAccessToken at h
  split_ifs at h
  simp_all

theorem verifyRefreshToken_ok {now : Nat} {tok : SignedToken} {d : Payload}
    (h : verifyRefreshToken now tok = .ok d) : d = tok.claims := by
  unfold verifyRefreshToken at h
  split_ifs at h
  simp_all

/-- When every record of `u` is unrevoked and unexpired at time `now`,
an `addRefreshToken` call keeps the last four records and appends. -/
theorem addRefreshToken_all_live {now : Nat} {u : User}
    (h : ∀ rt ∈ u.refreshTokens, rt.isRevoked = false ∧ now < rt.expiresAt)
    (d : NewTokenData) :
    (u.addRefreshToken now d).refreshTokens
      = jsSliceLast 4 u.refreshTokens ++ [d.toRecord now] := by
  unfold User.addRefreshToken
  have hf : u.refreshTokens.filter (RefreshTokenRecord.isLive now)
      = u.refreshTokens := by
    rw [List.filter_eq_self]
    intro rt hrt
    have := h rt hrt
    simp [RefreshTokenRecord.isLive, this.1, this.2]
  rw [hf]

/-- Starting from an account with no refresh-token records, a sequence
of `addRefreshToken` calls whose instants all precede `T` and whose
records all expire after `T` leaves exactly the records of the last
five calls. -/
theorem refreshInsertSeq_from_empty {T : Nat} {u0 : User}
    (h0 : u0.refreshTokens = [])
    (ps : List (Nat × NewTokenData))
    (hps : ∀ p ∈ ps, p.1 ≤ T ∧ T < p.2.expiresAt) :
    (refreshInsertSeq u0 ps).refreshTokens
      = jsSliceLast 5 (ps.map (fun p => p.2.toRecord p.1)) := by
  induction ps using List.reverseRecOn with
  | nil => simp [refreshInsertSeq, h0, jsSliceLast]
  | append_singleton qs p ih =>
    have hqs : ∀ q ∈ qs, q.1 ≤ T ∧ T < q.2.expiresAt := by
      intro q hq
      exact hps q (List.mem_append_left _ hq)
    have hp : p.1 ≤ T ∧ T < p.2.expiresAt :=
      hps p (List.mem_append_right _ (List.mem_singleton_self p))
    have hstep : refreshInsertSeq u0 (qs ++ [p])
        = (refreshInsertSeq u0 qs).addRefreshToken p.1 p.2 := by
      simp [refreshInsertSeq, List.foldl_append]
    have hihl := ih hqs
    have hlive : ∀ rt ∈ (refreshInsertSeq u0 qs).refreshTokens,
        rt.isRevoked = false ∧ p.1 < rt.expiresAt := by
      intro rt hrt
      rw [hihl] at hrt
      have hmem := mem_jsSliceLast hrt
      rcases List.mem_map.mp hmem with ⟨q, hq, hqrt⟩
      have := hqs q hq
      constructor
      · rw [← hqrt]; rfl
      · rw [← hqrt]
        exact lt_of_le_of_lt hp.1 this.2
    rw [hstep, addRefreshToken_all_live hlive, hihl,
      jsSliceLast_jsSliceLast (by omega), List.map_append]
    simp only [List.map_cons, List.map_nil]
    have h5 : (5 : Nat) = 4 + 1 := by norm_num
    rw [h5, jsSliceLast_snoc]

theorem jsSliceLast_map {α β : Type} (f : α → β) (n : Nat) (l : List α) :
    jsSliceLast n (l.map f) = (jsSliceLast n l).map f := by
  simp [jsSliceLast, List.map_drop]

/-! Concrete fixtures for the witnesses. -/

/-- A concrete student account with empty auth state. -/
def aliceBase : User :=
  { mongoId := "id1", uid := "u1", email := "alice@example.com",
    password := "hpw1", firstName := "Alice", lastName := "Ar",
    role := "student", isProfileVerified := false, isProfileComplete := false,
    verifyOtp := none, refreshTokens := [],
    loginAttempts := { count := 0, lastAttempt := none, lockedUntil := none },
    activeSessions := [] }

/-- Alice with an active lock until instant 1000. -/
def lockedAlice : User :=
  { aliceBase with loginAttempts :=
      { count := 5, lastAttempt := some 10, lockedUntil := some 1000 } }

/-- A concrete admin account. -/
def adminBase : User :=
  { mongoId := "id2", uid := "u2", email := "root@example.com",
    password := "hpw2", firstName := "Root", lastName := "Ad",
    role := "admin", isProfileVerified := true, isProfileComplete := true,
    verifyOtp := none, refreshTokens := [],
    loginAttempts := { count := 0, lastAttempt := none, lockedUntil := none },
    activeSessions := [] }

/-- A concrete insertion argument with a far-away expiry. -/
def sampleTokenData (i : Nat) : NewTokenData :=
  { token := { claims := {}, iat := 0, exp := 10000,
               iss := "almasync-backend", aud := "almasync-frontend",
               secret := .refreshSecret },
    tokenId := some (toString i),
    expiresAt := 10000,
    userAgent := "ua",
    ipAddress := "ip" }

/-! Claim theorems. -/

/-- C4: recording a failed login strictly more than 15 minutes after the
previous failure sets the counter to 1; a failure within 15 minutes of
the previous one increments it; whenever the updated counter reaches 5
or more the lock-until timestamp is set 30 minutes after the failure;
and the account is locked iff lock-until is set and later than now
(`UserSchema.methods.incrementLoginAttempts` / `isAccountLocked`). -/
theorem C4_failed_attempt_policy (la : LoginAttempts) (now t : Nat)
    (u : User) :
    (la.lastAttempt = some t → now > t + 15 * 60 * 1000 →
      (la.increment now).count = 1) ∧
    (la.lastAttempt = some t → now ≤ t + 15 * 60 * 1000 →
      (la.increment now).count = la.count + 1) ∧
    ((la.increment now).count ≥ 5 →
      (la.increment now).lockedUntil = some (now + 30 * 60 * 1000)) ∧
    (u.isAccountLocked now = true ↔
      ∃ s, u.loginAttempts.lockedUntil = some s ∧ now < s) := by
  refine ⟨?_, ?_, ?_, ?_⟩
  · intro h hgt
    simp [LoginAttempts.increment, h, hgt]
  · intro h hle
    have : ¬ now > t + 15 * 60 * 1000 := by omega
    simp [LoginAttempts.increment, h, this]
  · intro h5
    unfold LoginAttempts.increment at h5 ⊢
    cases hl : la.lastAttempt with
    | none =>
      simp only [hl] at h5 ⊢
      rw [if_pos h5]
    | some t' =>
      simp only [hl] at h5 ⊢
      by_cases hgt : now > t' + 15 * 60 * 1000
      · simp only [if_pos hgt] at h5 ⊢
        rw [if_pos h5]
      · simp only [if_neg hgt] at h5 ⊢
        rw [if_pos h5]
  · unfold User.isAccountLocked
    cases h : u.loginAttempts.lockedUntil with
    | none => simp
    | some s => simp

/-- Witness for C4 at concrete inputs: a failure 16 minutes after the
last one resets the counter to 1; one 10 minutes after increments 3 to
4; a fifth failure sets the lock 30 minutes ahead; and `lockedAlice`
is locked at instant 5. -/
theorem C4_failed_attempt_policy_witness :
    (LoginAttempts.increment (16 * 60 * 1000)
      { count := 3, lastAttempt := some 0, lockedUntil := none }).count = 1 ∧
    (LoginAttempts.increment (10 * 60 * 1000)
      { count := 3, lastAttempt := some 0, lockedUntil := none }).count = 4 ∧
    (LoginAttempts.increment (10 * 60 * 1000)
      { count := 4, lastAttempt := some 0, lockedUntil := none }).lockedUntil
      = some (10 * 60 * 1000 + 30 * 60 * 1000) ∧
    lockedAlice.isAccountLocked 5 = true := by
  have h1 := C4_failed_attempt_policy
    { count := 3, lastAttempt := some 0, lockedUntil := none }
    (16 * 60 * 1000) 0 aliceBase
  have h2 := C4_failed_attempt_policy
    { count := 3, lastAttempt := some 0, lockedUntil := none }
    (10 * 60 * 1000) 0 aliceBase
  have h3 := C4_failed_attempt_policy
    { count := 4, lastAttempt := some 0, lockedUntil := none }
    (10 * 60 * 1000) 0 aliceBase
  have h4 := C4_failed_attempt_policy
    { count := 0, lastAttempt := none, lockedUntil := none } 5 0 lockedAlice
  refine ⟨h1.1 rfl (by norm_num), h2.2.1 rfl (by norm_num),
    h3.2.2.1 (by decide), h4.2.2.2.mpr ⟨1000, rfl, by norm_num⟩⟩

/-- C5: one `addRefreshToken` call always leaves at most five records
(so at most five live ones); the call keeps exactly the newest four
existing live records before appending the new one; and a sequence of
at least five insertions starting from an empty record list — all
unexpired over the window — leaves exactly the records of the newest
five calls (`UserSchema.methods.addRefreshToken`). -/
theorem C5_refresh_token_cap (now : Nat) (u : User) (d : NewTokenData)
    (T : Nat) (u0 : User) (ps : List (Nat × NewTokenData))
    (h0 : u0.refreshTokens = [])
    (hps : ∀ p ∈ ps, p.1 ≤ T ∧ T < p.2.expiresAt)
    (h5 : 5 ≤ ps.length) :
    ((u.addRefreshToken now d).refreshTokens).length ≤ 5 ∧
    (u.addRefreshToken now d).refreshTokens
      = jsSliceLast 4 (u.refreshTokens.filter (RefreshTokenRecord.isLive now))
        ++ [d.toRecord now] ∧
    (refreshInsertSeq u0 ps).refreshTokens
      = (jsSliceLast 5 ps).map (fun p => p.2.toRecord p.1) ∧
    ((refreshInsertSeq u0 ps).refreshTokens).length = 5 := by
  have hseq := refreshInsertSeq_from_empty h0 ps hps
  have hmap : (refreshInsertSeq u0 ps).refreshTokens
      = (jsSliceLast 5 ps).map (fun p => p.2.toRecord p.1) := by
    rw [hseq, jsSliceLast_map]
  refine ⟨?_, rfl, hmap, ?_⟩
  · unfold User.addRefreshToken
    simp only [List.length_append, List.length_cons, List.length_nil]
    have := jsSliceLast_length_le 4
      (u.refreshTokens.filter (RefreshTokenRecord.isLive now))
    omega
  · rw [hmap]
    simp only [List.length_map, jsSliceLast, List.length_drop]
    omega

/-- Witness for C5: six insertions at instants 1..6, all expiring at
10000, leave exactly the records of calls 2..6. -/
theorem C5_refresh_token_cap_witness :
    ((aliceBase.addRefreshToken 0 (sampleTokenData 0)).refreshTokens).length
      ≤ 5 ∧
    (refreshInsertSeq aliceBase
        ((List.range 6).map (fun i => (i + 1, sampleTokenData i)))).refreshTokens
      = ((List.range 6).drop 1).map
          (fun i => (sampleTokenData i).toRecord (i + 1)) := by
  have h := C5_refresh_token_cap 0 aliceBase (sampleTokenData 0)
    100 aliceBase
    ((List.range 6).map (fun i => (i + 1, sampleTokenData i)))
    rfl (by decide) (by decide)
  refine ⟨h.1, ?_⟩
  rw [h.2.2.1]
  decide

/-- Every refresh-token array `loginUser` tries to save fails schema
validation: the record it appends carries no `tokenId` while the schema
requires one. -/
theorem refreshTokensValidate_append_none (now : Nat) (u : User)
    (tok : SignedToken) (e2 : Nat) (ua ip : String) :
    (u.addRefreshToken now
        { token := tok, tokenId := none, expiresAt := e2,
          userAgent := ua, ipAddress := ip }).refreshTokensValidate
      = false := by
  simp [User.refreshTokensValidate, User.addRefreshToken,
    NewTokenData.toRecord]

/-- C3: on a login attempt against a locked account `loginUser` rejects
with 429 straight after the lock check — no password comparison, no
recorder call, store unchanged; on an unlocked account the trace has
exactly one comparison, a recorder event can only appear as the single
event after that comparison, the failure recorder fires exactly once on
a wrong password, the success recorder exactly once on a correct
password with a positive failure count, and on a correct password with
a zero count no recorder fires and the persisted store is untouched
(the handler then dies in `addRefreshToken`'s failing save, after the
recorder stage the claim is about). -/
theorem C3_lockout_guard_ordering (cmp : String → String → Bool)
    (now : Nat) (store : Store) (req : LoginReq)
    (sessionId accessJti refreshJti : String) (u : User)
    (hfind : store.findByEmailOrUid req.email req.uid = some u) :
    (u.isAccountLocked now = true →
      loginUser cmp now store req sessionId accessJti refreshJti
        = (.error ⟨429, .accountTemporarilyLocked⟩, store,
            [.lockCheck])) ∧
    (u.isAccountLocked now = false →
      ((loginUser cmp now store req sessionId accessJti refreshJti).2.2).count
          .pwCompare = 1 ∧
      (∀ e ∈ (loginUser cmp now store req sessionId accessJti refreshJti).2.2,
        (e = .recFailure ∨ e = .recSuccess) →
        (loginUser cmp now store req sessionId accessJti refreshJti).2.2
          = [.lockCheck, .pwCompare, e]) ∧
      (cmp req.password u.password = false →
        (loginUser cmp now store req sessionId accessJti refreshJti).2.2
          = [.lockCheck, .pwCompare, .recFailure]) ∧
      (cmp req.password u.password = true → 0 < u.loginAttempts.count →
        (loginUser cmp now store req sessionId accessJti refreshJti).2.2
          = [.lockCheck, .pwCompare, .recSuccess]) ∧
      (cmp req.password u.password = true → u.loginAttempts.count = 0 →
        (loginUser cmp now store req sessionId accessJti refreshJti).2.2
          = [.lockCheck, .pwCompare] ∧
        (loginUser cmp now store req sessionId accessJti refreshJti).2.1
          = store)) := by
  constructor
  · intro hlock
    simp [loginUser, hfind, hlock]
  · intro hlock
    by_cases hc : cmp req.password u.password
    · by_cases hz : u.loginAttempts.count = 0
      · have htr : (loginUser cmp now store req sessionId accessJti
            refreshJti).2.2 = [.lockCheck, .pwCompare] := by
          simp [loginUser, hfind, hlock, hc, hz,
            refreshTokensValidate_append_none]
        refine ⟨by rw [htr]; decide, ?_,
          by intro hcf; simp [hc] at hcf,
          by intro _ hpos; omega, ?_⟩
        · intro e he hdisj
          rw [htr] at he ⊢
          rcases hdisj with h | h
          · subst h; simp at he
          · subst h; simp at he
        · intro _ _
          refine ⟨htr, ?_⟩
          simp [loginUser, hfind, hlock, hc, hz,
            refreshTokensValidate_append_none]
      · have htr : (loginUser cmp now store req sessionId accessJti
            refreshJti).2.2 = [.lockCheck, .pwCompare, .recSuccess] := by
          simp [loginUser, hfind, hlock, hc, Nat.pos_of_ne_zero hz,
            refreshTokensValidate_append_none]
        refine ⟨by rw [htr]; decide, ?_,
          by intro hcf; simp [hc] at hcf,
          by intro _ _; exact htr,
          by intro _ hz0; exact absurd hz0 hz⟩
        intro e he hdisj
        rw [htr] at he ⊢
        rcases hdisj with h | h
        · subst h; simp at he
        · subst h; rfl
    · have hcf : cmp req.password u.password = false := by
        simpa using hc
      have htr : (loginUser cmp now store req sessionId accessJti
          refreshJti).2.2 = [.lockCheck, .pwCompare, .recFailure] := by
        simp [loginUser, hfind, hlock, hcf]
      refine ⟨by rw [htr]; decide, ?_,
        by intro _; exact htr,
        by intro hct _; simp [hcf] at hct,
        by intro hct _; simp [hcf] at hct⟩
      intro e he hdisj
      rw [htr] at he ⊢
      rcases hdisj with h | h
      · subst h; rfl
      · subst h; simp at he

/-- Witness for C3: with one locked account the handler returns 429
after only the lock check and leaves the store untouched; with an
unlocked account and a failing comparator the trace is lock check,
comparison, failure recorder. -/
theorem C3_lockout_guard_ordering_witness :
    loginUser (fun _ _ => false) 5 { users := [lockedAlice] }
        { email := some "alice@example.com", uid := none, password := "x",
          rememberMe := false, userAgent := "ua", ipAddress := "ip" }
        "sid" "aj" "rj"
      = (.error ⟨429, .accountTemporarilyLocked⟩,
          { users := [lockedAlice] }, [.lockCheck]) ∧
    (loginUser (fun _ _ => false) 5 { users := [aliceBase] }
        { email := some "alice@example.com", uid := none, password := "x",
          rememberMe := false, userAgent := "ua", ipAddress := "ip" }
        "sid" "aj" "rj").2.2
      = [.lockCheck, .pwCompare, .recFailure] := by
  have h1 := C3_lockout_guard_ordering (fun _ _ => false) 5
      { users := [lockedAlice] }
      { email := some "alice@example.com", uid := none, password := "x",
        rememberMe := false, userAgent := "ua", ipAddress := "ip" }
      "sid" "aj" "rj" lockedAlice rfl
  have h2 := C3_lockout_guard_ordering (fun _ _ => false) 5
      { users := [aliceBase] }
      { email := some "alice@example.com", uid := none, password := "x",
        rememberMe := false, userAgent := "ua", ipAddress := "ip" }
      "sid" "aj" "rj" aliceBase rfl
  exact ⟨h1.1 rfl, (h2.2 rfl).2.2.1 rfl⟩

/-- C9: when the stored OTP slot is unset and the request omits the
`otp` field, the JS loose comparison `undefined == undefined` succeeds,
so `verifyOtpForPasswordChange` returns 200 with a `password-reset`
token instead of the Invalid-OTP 400. -/
theorem C9_absent_otp_bypass (now : Nat) (store : Store) (u : User)
    (email jti : String)
    (hfind : store.findByEmail email = some u)
    (hotp : u.verifyOtp = none) :
    verifyOtpForPasswordChange now store { otp := none, email := email } jti
      = .ok (store.updateUser { u with verifyOtp := none },
          generateAccessToken now
            { idClaim := some u.mongoId, uid := some u.uid,
              email := some u.email, purpose := some "password-reset" } jti)
    ∧ (generateAccessToken now
        { idClaim := some u.mongoId, uid := some u.uid,
          email := some u.email, purpose := some "password-reset" }
        jti).claims.purpose = some "password-reset" := by
  constructor
  · unfold verifyOtpForPasswordChange
    rw [hfind]
    simp [hotp, jsLooseEqOtp]
  · rfl

/-- Witness for C9: Alice has no stored OTP; a verify request without an
`otp` field succeeds and hands out a reset token. -/
theorem C9_absent_otp_bypass_witness :
    verifyOtpForPasswordChange 0 { users := [aliceBase] }
        { otp := none, email := "alice@example.com" } "jt"
      = .ok (Store.updateUser { users := [aliceBase] }
            { aliceBase with verifyOtp := none },
          generateAccessToken 0
            { idClaim := some "id1", uid := some "u1",
              email := some "alice@example.com",
              purpose := some "password-reset" } "jt") := by
  have h := C9_absent_otp_bypass 0 { users := [aliceBase] } aliceBase
    "alice@example.com" "jt" rfl rfl
  exact h.1

/-- No throw of the required middleware's try block carries status 423:
the lock test runs on the projected document, whose
`loginAttempts.lockedUntil` leaf is always `undefined`, so the
`ApiError(423)` branch is unreachable. -/
theorem userAuthTryBlock_status (n : Nat) (st : Store) (rq : AuthReq)
    (s : Nat) (t : ErrTag)
    (h : userAuthTryBlock n st rq = .error (.apiErr s t)) :
    s = 401 ∨ s = 403 := by
  unfold userAuthTryBlock at h
  cases hx : jsOr rq.cookieAccessToken (extractAccessToken rq) with
  | none =>
    rw [hx] at h
    simp only [Except.error.injEq, AuthThrow.apiErr.injEq] at h
    exact Or.inl h.1.symm
  | some tok =>
    rw [hx] at h
    cases hv : verifyAccessToken n tok with
    | error e =>
      simp [hv, Except.mapError, Bind.bind, Except.bind] at h
    | ok d =>
      cases hval : validateTokenPayload d "access" with
      | error e =>
        simp [hv, hval, Except.mapError, Bind.bind, Except.bind] at h
      | ok v =>
        cases v
        cases hf : st.findById d.idClaim with
        | none =>
          simp only [hv, hval, hf, Except.mapError, Bind.bind, Except.bind,
            Except.error.injEq, AuthThrow.apiErr.injEq] at h
          exact Or.inl h.1.symm
        | some u =>
          by_cases hr : u.role = "admin"
          · simp only [hv, hval, hf, Except.mapError, Bind.bind,
              Except.bind, User.selectAuthFields] at h
            rw [if_pos (by simp [hr])] at h
            simp only [Except.error.injEq, AuthThrow.apiErr.injEq] at h
            exact Or.inr h.1.symm
          · simp [hv, hval, hf, hr, Except.mapError, Bind.bind, Except.bind,
              User.selectAuthFields, ProjectedUser.isAccountLocked] at h

/-- C10 (code evaluation): the optional middleware never rejects any
request, and on a valid token for an admin account it proceeds without
binding a principal while the required middleware rejects 403 — but
the locked-account half of the claim fails: both middlewares fetch the
user through a `.select` projection that excludes `loginAttempts`, so
`isAccountLocked()` is falsy for every account; the required
middleware can never answer 423 and instead binds the locked
principal, and the optional middleware binds it too. -/
theorem C10_optional_auth_silence (now : Nat) (store : Store)
    (req : AuthReq) (tok : SignedToken) (d : Payload) (u : User)
    (htok : jsOr req.cookieAccessToken (extractAccessToken req) = some tok)
    (hver : verifyAccessToken now tok = .ok d)
    (hval : validateTokenPayload d "access" = .ok ())
    (hfind : store.findById d.idClaim = some u) :
    (∀ (n : Nat) (st : Store) (rq : AuthReq),
      ∃ r, optionalUserAuthentication n st rq = .ok r) ∧
    (∀ (n : Nat) (st : Store) (rq : AuthReq) (e : ApiError),
      userAuthentication n st rq = .error e → e.status ≠ 423) ∧
    (u.role = "admin" →
      optionalUserAuthentication now store req = .ok none ∧
      userAuthentication now store req
        = .error ⟨403, .adminShouldUseAdminRoutes⟩) ∧
    (u.role ≠ "admin" → u.isAccountLocked now = true →
      userAuthentication now store req = .ok u.selectAuthFields ∧
      optionalUserAuthentication now store req
        = .ok (some u.selectAuthFields)) := by
  refine ⟨?_, ?_, ?_, ?_⟩
  · intro n st rq
    unfold optionalUserAuthentication
    cases optionalAuthTryBlock n st rq with
    | error e => exact ⟨none, rfl⟩
    | ok r => exact ⟨r, rfl⟩
  · intro n st rq e he
    unfold userAuthentication at he
    split at he
    · cases he
    · rename_i s tg heq
      simp only [Except.error.injEq] at he
      rw [← he]
      show s ≠ 423
      rcases userAuthTryBlock_status n st rq s tg heq with h1 | h1
      · omega
      · omega
    · split at he
      · simp only [Except.error.injEq] at he
        rw [← he]
        decide
      · simp only [Except.error.injEq] at he
        rw [← he]
        decide
  · intro hadmin
    constructor
    · unfold optionalUserAuthentication optionalAuthTryBlock
      rw [htok]
      simp [hver, hval, hfind, hadmin, Except.mapError, Bind.bind,
        Except.bind, User.selectAuthFields]
    · unfold userAuthentication userAuthTryBlock
      rw [htok]
      simp [hver, hval, hfind, hadmin, Except.mapError, Bind.bind,
        Except.bind, User.selectAuthFields]
  · intro hadmin _hlock
    constructor
    · unfold userAuthentication userAuthTryBlock
      rw [htok]
      simp [hver, hval, hfind, hadmin, Except.mapError, Bind.bind,
        Except.bind, User.selectAuthFields, ProjectedUser.isAccountLocked]
    · unfold optionalUserAuthentication optionalAuthTryBlock
      rw [htok]
      simp [hver, hval, hfind, hadmin, Except.mapError, Bind.bind,
        Except.bind, User.selectAuthFields, ProjectedUser.isAccountLocked]

/-- Witness for C10: a valid token for the admin account passes the
optional middleware without binding a principal while the required one
rejects 403; a valid token for the locked student account is let
through by the required middleware (bound, no 423) and bound by the
optional one as well. -/
theorem C10_optional_auth_silence_witness :
    optionalUserAuthentication 5 { users := [adminBase, lockedAlice] }
        { cookieAccessToken := some (generateAccessToken 0
            (createUserPayload adminBase) "aj"),
          headerBearer := none, sessionIdHeader := none }
      = .ok none ∧
    userAuthentication 5 { users := [adminBase, lockedAlice] }
        { cookieAccessToken := some (generateAccessToken 0
            (createUserPayload adminBase) "aj"),
          headerBearer := none, sessionIdHeader := none }
      = .error ⟨403, .adminShouldUseAdminRoutes⟩ ∧
    userAuthentication 5 { users := [adminBase, lockedAlice] }
        { cookieAccessToken := some (generateAccessToken 0
            (createUserPayload lockedAlice) "bj"),
          headerBearer := none, sessionIdHeader := none }
      = .ok lockedAlice.selectAuthFields ∧
    optionalUserAuthentication 5 { users := [adminBase, lockedAlice] }
        { cookieAccessToken := some (generateAccessToken 0
            (createUserPayload lockedAlice) "bj"),
          headerBearer := none, sessionIdHeader := none }
      = .ok (some lockedAlice.selectAuthFields) := by
  have hA := C10_optional_auth_silence 5 { users := [adminBase, lockedAlice] }
      { cookieAccessToken := some (generateAccessToken 0
          (createUserPayload adminBase) "aj"),
        headerBearer := none, sessionIdHeader := none }
      (generateAccessToken 0 (createUserPayload adminBase) "aj")
      (generateAccessToken 0 (createUserPayload adminBase) "aj").claims
      adminBase rfl rfl rfl rfl
  have hL := C10_optional_auth_silence 5 { users := [adminBase, lockedAlice] }
      { cookieAccessToken := some (generateAccessToken 0
          (createUserPayload lockedAlice) "bj"),
        headerBearer := none, sessionIdHeader := none }
      (generateAccessToken 0 (createUserPayload lockedAlice) "bj")
      (generateAccessToken 0 (createUserPayload lockedAlice) "bj").claims
      lockedAlice rfl rfl rfl rfl
  have h1 := hA.2.2.1 rfl
  have h2 := hL.2.2.2 (by decide) rfl
  exact ⟨h1.1, h1.2, h2.1, h2.2⟩

/-- The `refreshAccessToken` try block cannot succeed on a token whose
payload has no `userId` claim: the `User.findById(decoded.userId)`
lookup translates to `findOne({_id: null})` and finds nothing. -/
theorem refreshTryBlock_no_userId {now : Nat} {store : Store}
    {req : RefreshReq} {tok : SignedToken} {accessJti refreshJti : String}
    (h : tok.claims.userId = none) (r : Store × TokenPairData) :
    refreshTryBlock now store req tok accessJti refreshJti
      ≠ Except.ok r := by
  unfold refreshTryBlock
  cases hv : verifyRefreshToken now tok with
  | error e => simp [Except.mapError, Bind.bind, Except.bind]
  | ok d =>
    have hd : d = tok.claims := verifyRefreshToken_ok hv
    subst hd
    cases hval : validateTokenPayload tok.claims "refresh" with
    | error e => simp [Except.mapError, Bind.bind, Except.bind, hval]
    | ok v =>
      cases v
      simp [Except.mapError, Bind.bind, Except.bind, hval, h, Store.findById]

/-- C1 (code evaluation): every refresh attempt bearing a token issued
through this codebase's login path — claims built by
`createUserPayload`, which sets `_id` but no `userId` — is rejected
with a 401: the handler looks the account up by `decoded.userId`, so
rotation never happens, for any store contents. -/
theorem C1_refresh_never_rotates (now issuedAt : Nat) (store : Store)
    (u : User) (jti accessJti refreshJti : String) (req : RefreshReq)
    (hreq : req.refreshToken
      = some (generateRefreshToken issuedAt (createUserPayload u) jti)) :
    refreshAccessToken now store req accessJti refreshJti
        = .error ⟨401, .refreshTokenExpiredLoginAgain⟩ ∨
    refreshAccessToken now store req accessJti refreshJti
        = .error ⟨401, .invalidRefreshTokenWrapped⟩ := by
  unfold refreshAccessToken
  rw [hreq]
  cases htb : refreshTryBlock now store req
      (generateRefreshToken issuedAt (createUserPayload u) jti)
      accessJti refreshJti with
  | ok r => exact absurd htb (refreshTryBlock_no_userId rfl r)
  | error t =>
    by_cases hm : t.mentionsExpired
    · left; simp [htb, hm]
    · right; simp [htb, hm]

/-- Witness for C1: Alice's freshly issued refresh token, presented to
the refresh handler over a store that contains her account, is
rejected 401. -/
theorem C1_refresh_never_rotates_witness :
    refreshAccessToken 1 { users := [aliceBase] }
        { refreshToken := some (generateRefreshToken 0
            (createUserPayload aliceBase) "rj"),
          bodySessionId := none, userAgent := "ua", ipAddress := "ip" }
        "aj2" "rj2"
      = .error ⟨401, .refreshTokenExpiredLoginAgain⟩ ∨
    refreshAccessToken 1 { users := [aliceBase] }
        { refreshToken := some (generateRefreshToken 0
            (createUserPayload aliceBase) "rj"),
          bodySessionId := none, userAgent := "ua", ipAddress := "ip" }
        "aj2" "rj2"
      = .error ⟨401, .invalidRefreshTokenWrapped⟩ :=
  C1_refresh_never_rotates 1 0 { users := [aliceBase] } aliceBase
    "rj" "aj2" "rj2"
    { refreshToken := some (generateRefreshToken 0
        (createUserPayload aliceBase) "rj"),
      bodySessionId := none, userAgent := "ua", ipAddress := "ip" } rfl

/-- A successful OTP verification hands out a token whose payload has
no `userId` claim (the reset payload carries `_id`). -/
theorem verifyOtp_ok_userId_none {now : Nat} {store : Store}
    {req : OtpVerifyReq} {jti : String} {r : Store × SignedToken}
    (h : verifyOtpForPasswordChange now store req jti = .ok r) :
    r.2.claims.userId = none := by
  unfold verifyOtpForPasswordChange at h
  cases hf : store.findByEmail req.email with
  | none => rw [hf] at h; cases h
  | some u =>
    rw [hf] at h
    by_cases ho : jsLooseEqOtp req.otp u.verifyOtp
    · simp only [ho, Bool.not_true, Bool.false_eq_true, if_false,
        Except.ok.injEq] at h
      rw [← h]
      rfl
    · simp [ho] at h

/-- The `changePasswordUsingOtp` try block cannot succeed on a token
whose payload has no `userId` claim. -/
theorem changePwTryBlock_no_userId (hash : String → String) {now : Nat}
    {store : Store} {newPassword : String} {tok : SignedToken}
    (h : tok.claims.userId = none) (s : Store) :
    changePwTryBlock hash now store newPassword tok ≠ Except.ok s := by
  unfold changePwTryBlock
  cases hv : verifyAccessToken now tok with
  | error e => simp [Except.mapError, Bind.bind, Except.bind]
  | ok d =>
    have hd : d = tok.claims := verifyAccessToken_ok hv
    subst hd
    by_cases hp : tok.claims.purpose = some "password-reset"
    · simp [Except.mapError, Bind.bind, Except.bind, hp, h, Store.findById]
    · simp [Except.mapError, Bind.bind, Except.bind, hp]

/-- C2 (code evaluation): with a reset token obtained from a successful
OTP verification, the change-password handler always rejects with a
400 — it looks the account up by `decoded.userId`, a claim the reset
payload does not carry — so the password is never updated and no
credentials are revoked. -/
theorem C2_password_change_never_applies (hash : String → String)
    (now t0 : Nat) (store store0 store1 : Store) (reqv : OtpVerifyReq)
    (jti : String) (tok : SignedToken) (req : ChangePwReq)
    (hverify : verifyOtpForPasswordChange t0 store0 reqv jti
      = .ok (store1, tok))
    (hreq : req.resetToken = some tok) :
    changePasswordUsingOtp hash now store req
        = .error ⟨400, .resetTokenExpired⟩ ∨
    changePasswordUsingOtp hash now store req
        = .error ⟨400, .invalidResetTokenWrapped⟩ := by
  have hnone : tok.claims.userId = none := verifyOtp_ok_userId_none hverify
  unfold changePasswordUsingOtp
  rw [hreq]
  cases htb : changePwTryBlock hash now store req.newPassword tok with
  | ok s => exact absurd htb (changePwTryBlock_no_userId hash hnone s)
  | error t =>
    by_cases hm : t.mentionsExpired
    · left; simp [htb, hm]
    · right; simp [htb, hm]

/-- Witness for C2: the reset token produced by verifying Alice's OTP
123456 is rejected by the change-password handler with a 400. -/
theorem C2_password_change_never_applies_witness :
    changePasswordUsingOtp (fun s => s) 1
        { users := [{ aliceBase with verifyOtp := some 123456 }] }
        { newPassword := "np",
          resetToken := some (generateAccessToken 0
            { idClaim := some "id1", uid := some "u1",
              email := some "alice@example.com",
              purpose := some "password-reset" } "jt") }
        = .error ⟨400, .resetTokenExpired⟩ ∨
    changePasswordUsingOtp (fun s => s) 1
        { users := [{ aliceBase with verifyOtp := some 123456 }] }
        { newPassword := "np",
          resetToken := some (generateAccessToken 0
            { idClaim := some "id1", uid := some "u1",
              email := some "alice@example.com",
              purpose := some "password-reset" } "jt") }
        = .error ⟨400, .invalidResetTokenWrapped⟩ :=
  C2_password_change_never_applies (fun s => s) 1 0
    { users := [{ aliceBase with verifyOtp := some 123456 }] }
    { users := [{ aliceBase with verifyOtp := some 123456 }] }
    (Store.updateUser { users := [{ aliceBase with verifyOtp := some 123456 }] }
      { aliceBase with verifyOtp := none })
    { otp := some 123456, email := "alice@example.com" } "jt"
    (generateAccessToken 0
      { idClaim := some "id1", uid := some "u1",
        email := some "alice@example.com",
        purpose := some "password-reset" } "jt")
    { newPassword := "np",
      resetToken := some (generateAccessToken 0
        { idClaim := some "id1", uid := some "u1",
          email := some "alice@example.com",
          purpose := some "password-reset" } "jt") }
    rfl rfl

/-- C6 (code evaluation): user login rejects an unknown identity with
401 `Invalid credentials` — not the 404 its own documentation states —
while admin login rejects an unknown identity with 404; a wrong
password yields 401 in both handlers. -/
theorem C6_login_error_asymmetry (cmp : String → String → Bool) (now : Nat)
    (store : Store) (req : LoginReq) (reqA : AdminLoginReq)
    (sessionId accessJti refreshJti recordTokenId : String) (u a : User) :
    (store.findByEmailOrUid req.email req.uid = none →
      (loginUser cmp now store req sessionId accessJti refreshJti).1
        = .error ⟨401, .invalidCredentials⟩) ∧
    (reqA.email.isEmpty = false → reqA.password.isEmpty = false →
      store.findAdminByEmail reqA.email = none →
      (loginAdmin cmp now store reqA recordTokenId sessionId accessJti
          refreshJti).1 = .error ⟨404, .adminDetailsInvalid⟩) ∧
    (store.findByEmailOrUid req.email req.uid = some u →
      u.isAccountLocked now = false → cmp req.password u.password = false →
      (loginUser cmp now store req sessionId accessJti refreshJti).1
        = .error ⟨401, .invalidPassword⟩) ∧
    (reqA.email.isEmpty = false → reqA.password.isEmpty = false →
      store.findAdminByEmail reqA.email = some a →
      a.isAccountLocked now = false → cmp reqA.password a.password = false →
      (loginAdmin cmp now store reqA recordTokenId sessionId accessJti
          refreshJti).1 = .error ⟨401, .invalidPasswordAndCredentials⟩) := by
  refine ⟨?_, ?_, ?_, ?_⟩
  · intro hnone
    simp [loginUser, hnone]
  · intro he hp hnone
    simp [loginAdmin, he, hp, hnone]
  · intro hfind hlock hpw
    simp [loginUser, hfind, hlock, hpw]
  · intro he hp hfind hlock hpw
    simp [loginAdmin, he, hp, hfind, hlock, hpw]

/-- Witness for C6: with only Alice and one admin in the store, a user
login for the unknown `bob@example.com` gets 401 while the admin login
for the same unknown email gets 404; Alice with a wrong password gets
401 and so does the admin. -/
theorem C6_login_error_asymmetry_witness :
    (loginUser (fun _ _ => false) 0 { users := [aliceBase, adminBase] }
        { email := some "bob@example.com", uid := none, password := "x",
          rememberMe := false, userAgent := "ua", ipAddress := "ip" }
        "sid" "aj" "rj").1
      = .error ⟨401, .invalidCredentials⟩ ∧
    (loginAdmin (fun _ _ => false) 0 { users := [aliceBase, adminBase] }
        { email := "bob@example.com", password := "x", userAgent := "ua",
          ipAddress := "ip" } "tid" "sid" "aj" "rj").1
      = .error ⟨404, .adminDetailsInvalid⟩ ∧
    (loginUser (fun _ _ => false) 0 { users := [aliceBase, adminBase] }
        { email := some "alice@example.com", uid := none, password := "x",
          rememberMe := false, userAgent := "ua", ipAddress := "ip" }
        "sid" "aj" "rj").1
      = .error ⟨401, .invalidPassword⟩ ∧
    (loginAdmin (fun _ _ => false) 0 { users := [aliceBase, adminBase] }
        { email := "root@example.com", password := "x", userAgent := "ua",
          ipAddress := "ip" } "tid" "sid" "aj" "rj").1
      = .error ⟨401, .invalidPasswordAndCredentials⟩ := by
  have h1 := C6_login_error_asymmetry (fun _ _ => false) 0
      { users := [aliceBase, adminBase] }
      { email := some "bob@example.com", uid := none, password := "x",
        rememberMe := false, userAgent := "ua", ipAddress := "ip" }
      { email := "bob@example.com", password := "x", userAgent := "ua",
        ipAddress := "ip" } "sid" "aj" "rj" "tid" aliceBase adminBase
  have h2 := C6_login_error_asymmetry (fun _ _ => false) 0
      { users := [aliceBase, adminBase] }
      { email := some "alice@example.com", uid := none, password := "x",
        rememberMe := false, userAgent := "ua", ipAddress := "ip" }
      { email := "root@example.com", password := "x", userAgent := "ua",
        ipAddress := "ip" } "sid" "aj" "rj" "tid" aliceBase adminBase
  exact ⟨h1.1 rfl, h1.2.1 rfl rfl rfl, h2.2.2.1 rfl rfl rfl,
    h2.2.2.2 rfl rfl rfl rfl rfl⟩

/-- C7 (code evaluation): the only refresh-token signer in the codebase
stamps a fixed 7-day expiry whatever the payload — `generateRefreshToken`
in `src/utils/jwt.js` accepts no remember-me input, and the
controller's extra arguments to `generateTokenPair` are dropped — and
the user-login handler cannot even deliver one: on a correct-password
remember-me login the record handed to `addRefreshToken` (whose
`expiresAt` alone would have honoured the 30-day window) lacks the
schema-required `tokenId`, so the save is rejected, the handler errors
with the generic 500 and nothing is issued or persisted. -/
theorem C7_remember_me_refresh_ttl (cmp : String → String → Bool)
    (now : Nat) (store : Store) (req : LoginReq)
    (sessionId accessJti refreshJti : String) (u : User)
    (hfind : store.findByEmailOrUid req.email req.uid = some u)
    (hlock : u.isAccountLocked now = false)
    (hpw : cmp req.password u.password = true)
    (hrm : req.rememberMe = true)
    (hz : u.loginAttempts.count = 0) :
    (∀ (p : Payload) (aJti rJti : String),
      (generateTokenPair now p aJti rJti).refreshToken.exp
          - (generateTokenPair now p aJti rJti).refreshToken.iat
        = 7 * 24 * 60 * 60 * 1000) ∧
    loginUser cmp now store req sessionId accessJti refreshJti
      = (.error validationFailure, store, [.lockCheck, .pwCompare]) := by
  constructor
  · intro p aJti rJti
    simp [generateTokenPair, generateRefreshToken, refreshTokenTtl]
  · simp [loginUser, hfind, hlock, hpw, hrm, hz,
      refreshTokensValidate_append_none]

/-- Witness for C7: Alice's remember-me login produces no token pair at
all — it errors on the rejected save — and the signed refresh token
the codebase would have built for any payload has a 7-day life. -/
theorem C7_remember_me_refresh_ttl_witness :
    (generateTokenPair 0 (createUserPayload aliceBase) "aj"
        "rj").refreshToken.exp
      - (generateTokenPair 0 (createUserPayload aliceBase) "aj"
        "rj").refreshToken.iat
      = 7 * 24 * 60 * 60 * 1000 ∧
    loginUser (fun _ _ => true) 0 { users := [aliceBase] }
        { email := some "alice@example.com", uid := none, password := "pw",
          rememberMe := true, userAgent := "ua", ipAddress := "ip" }
        "sid" "aj" "rj"
      = (.error validationFailure, { users := [aliceBase] },
          [.lockCheck, .pwCompare]) := by
  have h := C7_remember_me_refresh_ttl (fun _ _ => true) 0
    { users := [aliceBase] }
    { email := some "alice@example.com", uid := none, password := "pw",
      rememberMe := true, userAgent := "ua", ipAddress := "ip" }
    "sid" "aj" "rj" aliceBase rfl rfl rfl rfl rfl
  exact ⟨h.1 (createUserPayload aliceBase) "aj" "rj", h.2⟩

/-- C8 (code evaluation): verifying the matching OTP clears the stored
OTP slot and returns a `password-reset` purpose token that carries no
session id — but its lifetime is the 15-minute
`JWT_ACCESS_TOKEN_EXPIRY` (exp − iat = 900 seconds), not the 5 minutes
the handler's own comment promises. -/
theorem C8_otp_verification_postcondition (now : Nat) (store : Store)
    (u : User) (email jti : String) (o : Nat)
    (hfind : store.findByEmail email = some u)
    (hotp : u.verifyOtp = some o) :
    ∃ tok, verifyOtpForPasswordChange now store
        { otp := some o, email := email } jti
        = .ok (store.updateUser { u with verifyOtp := none }, tok) ∧
      tok.claims.purpose = some "password-reset" ∧
      tok.claims.sessionId = none ∧
      tok.exp - tok.iat = 15 * 60 * 1000 := by
  unfold verifyOtpForPasswordChange
  rw [hfind]
  simp only [hotp, jsLooseEqOtp, beq_self_eq_true, Bool.not_true,
    Bool.false_eq_true, if_false]
  refine ⟨_, rfl, rfl, rfl, ?_⟩
  simp [generateAccessToken, accessTokenTtl]

/-- Witness for C8: verifying Alice's stored OTP 123456 succeeds,
clears the slot, and returns a reset token with a 15-minute life. -/
theorem C8_otp_verification_postcondition_witness :
    ∃ tok, verifyOtpForPasswordChange 7
        { users := [{ aliceBase with verifyOtp := some 123456 }] }
        { otp := some 123456, email := "alice@example.com" } "jt"
        = .ok (Store.updateUser
            { users := [{ aliceBase with verifyOtp := some 123456 }] }
            { aliceBase with verifyOtp := none }, tok) ∧
      tok.claims.purpose = some "password-reset" ∧
      tok.claims.sessionId = none ∧
      tok.exp - tok.iat = 15 * 60 * 1000 :=
  C8_otp_verification_postcondition 7
    { users := [{ aliceBase with verifyOtp := some 123456 }] }
    { aliceBase with verifyOtp := some 123456 }
    "alice@example.com" "jt" 123456 rfl rfl

end AlmaSync
